import Mathlib

/-!
Shallow embedding of the supply-chain risk agent repository
(`schema.py`, `graph_ops.py`, `vector_ops.py`, `agent.py`) and proofs
about the claims of its specification.

Modelling conventions:
* Python floats (`risk_score`, `revenue`, `price`) are carried as `Rat`;
  they are payload only, never computed with in the modelled code.
* Python dataclass equality compares all fields of the same class; this is
  the derived `DecidableEq` on the structures below.  The dataclass
  `__hash__` methods hash only the identity key; hash equality is an
  optimisation inside Python dicts, key identity in a dict is `__eq__`,
  which the embedding uses directly.
* NetworkX `DiGraph` state is a node list (insertion order) and an edge
  list with at most one edge per ordered pair; `add_node` on a present
  node is a no-op, `add_edge` auto-inserts missing endpoints and
  overwrites the attribute of an existing edge (documented NetworkX
  behaviour).
* ChromaDB collections are lists of submitted entries; `collection.add`
  is modelled as appending the entries the repository code submits
  (duplicate-id validation inside ChromaDB is external to the repository).
  The embedding-based ranking of `collection.query` is an external oracle:
  functions that consume a query result take the returned candidate list
  as an explicit argument.
-/

namespace SupplyChainRisk

/-- Embeds `schema.Supplier`: dataclass of name, risk_score, revenue. -/
structure Supplier where
  name : String
  risk_score : Rat
  revenue : Rat
deriving DecidableEq, Repr

/-- Embeds `schema.Product`: dataclass of name, sku, price. -/
structure Product where
  name : String
  sku : String
  price : Rat
deriving DecidableEq, Repr

/-- Embeds `schema.Location`: dataclass of name, country. -/
structure Location where
  name : String
  country : String
deriving DecidableEq, Repr

/-- A graph node is one of the three entity kinds (`Supplier | Product | Location`
in the Python type hints); Python dataclass equality never identifies values of
different classes, matching the derived equality on this sum. -/
inductive Node where
  | sup : Supplier → Node
  | prod : Product → Node
  | loc : Location → Node
deriving DecidableEq, Repr

/-- The `name` attribute, defined on all three entity classes. -/
def Node.name : Node → String
  | .sup s => s.name
  | .prod p => p.name
  | .loc l => l.name

/-- Python `repr`/`str` of a `Supplier` dataclass (numeric rendering is the
embedding's, no claim depends on it). -/
def Supplier.pyStr (s : Supplier) : String :=
  "Supplier(name=" ++ s.name ++ ", risk_score=" ++ toString s.risk_score ++
    ", revenue=" ++ toString s.revenue ++ ")"

/-- Python `repr`/`str` of a `Product` dataclass. -/
def Product.pyStr (p : Product) : String :=
  "Product(name=" ++ p.name ++ ", sku=" ++ p.sku ++ ", price=" ++ toString p.price ++ ")"

/-- Python `repr`/`str` of a `Location` dataclass. -/
def Location.pyStr (l : Location) : String :=
  "Location(name=" ++ l.name ++ ", country=" ++ l.country ++ ")"

/-- Python `str(node)` on a graph node. -/
def Node.pyStr : Node → String
  | .sup s => s.pyStr
  | .prod p => p.pyStr
  | .loc l => l.pyStr

/-- A directed edge with its `edge_type` attribute, as stored by
`SupplyChainGraph.add_edge` via `nx.DiGraph.add_edge`. -/
structure Edge where
  src : Node
  dst : Node
  edge_type : String
deriving DecidableEq, Repr

/-- Embeds the state of `graph_ops.SupplyChainGraph`: the underlying
`nx.DiGraph` as a node list in insertion order and an edge list with at most
one entry per ordered pair (the `locations`/`suppliers`/`products` caches of
the Python class feed only the vector stores and are passed separately). -/
structure SupplyChainGraph where
  nodes : List Node
  edges : List Edge
deriving DecidableEq, Repr

/-- Embeds `SupplyChainGraph.add_node` (`nx.DiGraph.add_node`): inserts the
node if absent under dataclass equality, otherwise leaves the graph unchanged. -/
def SupplyChainGraph.add_node (g : SupplyChainGraph) (node : Node) : SupplyChainGraph :=
  if node ∈ g.nodes then g else SupplyChainGraph.mk (g.nodes ++ [node]) g.edges

/-- NetworkX edge-attribute update: if an edge for the ordered pair exists its
attribute dict is overwritten in place, otherwise the edge is appended. -/
def upsertEdge (es : List Edge) (source target : Node) (edge_type : String) : List Edge :=
  if es.any (fun e => decide (e.src = source ∧ e.dst = target)) then
    es.map (fun e => if e.src = source ∧ e.dst = target then Edge.mk source target edge_type else e)
  else
    es ++ [Edge.mk source target edge_type]

/-- Embeds `SupplyChainGraph.add_edge` (`nx.DiGraph.add_edge`): NetworkX
auto-inserts endpoints that are not yet nodes, then records the directed,
`edge_type`-labelled edge. -/
def SupplyChainGraph.add_edge (g : SupplyChainGraph) (source target : Node)
    (edge_type : String) : SupplyChainGraph :=
  let g1 := g.add_node source
  let g2 := g1.add_node target
  SupplyChainGraph.mk g2.nodes (upsertEdge g2.edges source target edge_type)

/-- Embeds `SupplyChainGraph.get_node_by_name`:
`next((node for node in self.graph.nodes if node.name == name), None)` —
the first node in insertion order with exactly (case-sensitively) equal name. -/
def SupplyChainGraph.get_node_by_name (g : SupplyChainGraph) (name : String) : Option Node :=
  g.nodes.find? (fun node => decide (node.name = name))

/-- Direct predecessors of a node in the edge list. -/
def predecessors (g : SupplyChainGraph) (node : Node) : List Node :=
  (g.edges.filter (fun e => decide (e.dst = node))).map (fun e => e.src)

/-- Direct successors of a node in the edge list. -/
def successors (g : SupplyChainGraph) (node : Node) : List Node :=
  (g.edges.filter (fun e => decide (e.src = node))).map (fun e => e.dst)

/-- Embeds `nx.all_neighbors(graph, node)` on a DiGraph:
`chain(graph.predecessors(node), graph.successors(node))`. -/
def all_neighbors (g : SupplyChainGraph) (node : Node) : List Node :=
  predecessors g node ++ successors g node

/-- A ChromaDB collection entry as the repository submits it: the flattened
identity key as `id`, the embedded text as `document`, and the full record as
`metadata` (type `μ`, one metadata shape per store). -/
structure VEntry (μ : Type) where
  id : String
  document : String
  metadata : μ
deriving DecidableEq, Repr

/-- Metadata dict submitted by `ProductVectorStore.add_products`. -/
structure ProductMeta where
  name : String
  sku : String
  price : Rat
deriving DecidableEq, Repr

/-- Metadata dict submitted by `SupplierVectorStore.add_suppliers`. -/
structure SupplierMeta where
  name : String
  risk_score : Rat
  revenue : Rat
deriving DecidableEq, Repr

/-- Metadata dict submitted by `LocationVectorStore.add_locations`. -/
structure LocationMeta where
  name : String
  country : String
deriving DecidableEq, Repr

/-- The entry `ProductVectorStore.add_products` builds for one product:
`ids.append(product.sku)`, `documents.append(product.name)`, metadata with
name, sku, price. -/
def productEntry (p : Product) : VEntry ProductMeta :=
  VEntry.mk p.sku p.name (ProductMeta.mk p.name p.sku p.price)

/-- The entry `SupplierVectorStore.add_suppliers` builds for one supplier:
the supplier name is both id and embedded document. -/
def supplierEntry (s : Supplier) : VEntry SupplierMeta :=
  VEntry.mk s.name s.name (SupplierMeta.mk s.name s.risk_score s.revenue)

/-- The entry `LocationVectorStore.add_locations` builds for one location:
id `name::country`, document `name country`. -/
def locationEntry (l : Location) : VEntry LocationMeta :=
  VEntry.mk (l.name ++ "::" ++ l.country) (l.name ++ " " ++ l.country)
    (LocationMeta.mk l.name l.country)

/-- Python `set(locations)`: deduplication under dataclass equality (which for
`Location` coincides with its identity key, since name and country are all of
its fields).  Python set iteration order is unspecified; the embedding fixes
one order, and no proved statement depends on it. -/
def pySet (locations : List Location) : List Location :=
  locations.dedup

/-- Embeds `ProductVectorStore.add_products`: builds the parallel
`ids`/`documents`/`metadatas` lists from the input (no deduplication), and on
`if ids:` submits them to `collection.add` returning `True`, else returns
`False` with no write. -/
def ProductVectorStore.add_products (products : List Product)
    (collection : List (VEntry ProductMeta)) : Bool × List (VEntry ProductMeta) :=
  let entries := products.map productEntry
  if entries.isEmpty then (false, collection) else (true, collection ++ entries)

/-- Embeds `SupplierVectorStore.add_suppliers`: same shape as the product
store, no deduplication of the input list. -/
def SupplierVectorStore.add_suppliers (suppliers : List Supplier)
    (collection : List (VEntry SupplierMeta)) : Bool × List (VEntry SupplierMeta) :=
  let entries := suppliers.map supplierEntry
  if entries.isEmpty then (false, collection) else (true, collection ++ entries)

/-- Embeds `LocationVectorStore.add_locations`: iterates over
`set(locations)` — the one store that deduplicates its input — then submits
or returns `False` on empty input. -/
def LocationVectorStore.add_locations (locations : List Location)
    (collection : List (VEntry LocationMeta)) : Bool × List (VEntry LocationMeta) :=
  let entries := (pySet locations).map locationEntry
  if entries.isEmpty then (false, collection) else (true, collection ++ entries)

/-- Embeds the reconstruction loop of `ProductVectorStore.get_products` on the
per-query slices of a ChromaDB query result (`documents[0]`, `metadatas[0]`,
`ids[0]`, equal-length lists by the ChromaDB contract, so the `zip`
truncation never fires on real results):
`Product(name=docs[i], sku=ids[i], price=metas[i].price)`. -/
def ProductVectorStore.get_products (docs : List String) (metas : List ProductMeta)
    (ids : List String) : List Product :=
  (docs.zip (metas.zip ids)).map (fun x => Product.mk x.1 x.2.2 x.2.1.price)

/-- Embeds the reconstruction loop of `SupplierVectorStore.get_suppliers`:
`Supplier(name=docs[i], risk_score=metas[i].risk_score, revenue=metas[i].revenue)`. -/
def SupplierVectorStore.get_suppliers (docs : List String) (metas : List SupplierMeta)
    (ids : List String) : List Supplier :=
  (docs.zip (metas.zip ids)).map (fun x => Supplier.mk x.1 x.2.1.risk_score x.2.1.revenue)

/-- Embeds the reconstruction loop of `LocationVectorStore.get_locations`:
iterates over `range(len(docs))` and rebuilds each location from its metadata
(`ids` is bound in the source but unused element-wise). -/
def LocationVectorStore.get_locations (docs : List String) (metas : List LocationMeta)
    (_ids : List String) : List Location :=
  (docs.zip metas).map (fun x => Location.mk x.2.name x.2.country)

/-- Python `str.lower()` as the repository uses it (ASCII case folding, which
covers the comparisons the code performs); defined over the character list so
that concrete instances evaluate by kernel reduction. -/
def pyLower (s : String) : String := String.mk (s.data.map Char.toLower)

/-- The sentinel of `retrieve_supplier_info` for an empty search result. -/
def supplierNoMatch (query : String) : String :=
  "No suppliers found matching '" ++ query ++ "'. Try a different search term."

/-- The sentinel of `retrieve_location_info` for an empty search result. -/
def locationNoMatch (query : String) : String :=
  "No locations found matching '" ++ query ++ "'. Try a different search term."

/-- The not-found diagnostic of `explore_graph_connections`. -/
def notFoundMessage (node_name : String) : String :=
  "No node found matching '" ++ node_name ++ "' (exact or similar).\n" ++
    "Try using retrieve_location_info('" ++ node_name ++
    "') to find similar locations, or retrieve_supplier_info('" ++ node_name ++
    "') to find similar suppliers."

/-- The isolated-node diagnostic of `explore_graph_connections`. -/
def isolatedMessage (name : String) : String :=
  "Node '" ++ name ++ "' found but has no connections in the graph."

/-- The semantic-match note of `explore_graph_connections`. -/
def semanticNote (node_name : String) (matched_name : String)
    (connected_nodes : List String) : String :=
  "Note: No exact match for '" ++ node_name ++
    "', but found a semantically similar node: " ++ matched_name ++
    ", and this semantically similar node has connections to the following nodes:\n" ++
    "Connected nodes:\n" ++ String.intercalate "\n" connected_nodes

/-- The accumulation loop of `retrieve_product_info`: on the first candidate
whose name equals the query case-insensitively it returns `[str(product)]`
immediately, otherwise it appends `str(product)` and continues. -/
def productScan (query : String) (acc : List String) : List Product → List String
  | [] => acc
  | p :: rest =>
    if pyLower query = pyLower p.name then [p.pyStr]
    else productScan query (acc ++ [p.pyStr]) rest

/-- The accumulation loop of `retrieve_supplier_info`. -/
def supplierScan (query : String) (acc : List String) : List Supplier → List String
  | [] => acc
  | s :: rest =>
    if pyLower query = pyLower s.name then [s.pyStr]
    else supplierScan query (acc ++ [s.pyStr]) rest

/-- The accumulation loop of `retrieve_location_info`. -/
def locationScan (query : String) (acc : List String) : List Location → List String
  | [] => acc
  | l :: rest =>
    if pyLower query = pyLower l.name then [l.pyStr]
    else locationScan query (acc ++ [l.pyStr]) rest

/-- Embeds `agent.retrieve_product_info`; `products` is the candidate list the
external k-NN call `product_vector_db.get_products(query, k=5)` returned.
There is no empty-result guard in this function. -/
def retrieve_product_info (query : String) (products : List Product) : List String :=
  productScan query [] products

/-- Embeds `agent.retrieve_supplier_info`; `suppliers` is the candidate list
of `supplier_vector_db.get_suppliers(query, k=5)`.  An empty result returns
the sentinel message. -/
def retrieve_supplier_info (query : String) (suppliers : List Supplier) : List String :=
  if suppliers.isEmpty then [supplierNoMatch query]
  else supplierScan query [] suppliers

/-- Embeds `agent.retrieve_location_info`; `locations` is the candidate list
of `location_vector_db.get_locations(query, k=5)`.  An empty result returns
the sentinel message. -/
def retrieve_location_info (query : String) (locations : List Location) : List String :=
  if locations.isEmpty then [locationNoMatch query]
  else locationScan query [] locations

/-- The resolution phase of `agent.explore_graph_connections` (lines 163-196):
exact name lookup first; on a miss the Location, then Supplier, then Product
store is queried (each with `k = 1` — only the head of each oracle list is
consulted) and the top hit's name is re-resolved in the graph, falling through
to the next store when either the store returns nothing or the name has no
graph node.  The boolean is `matched_via_semantic`. -/
def resolveNode (g : SupplyChainGraph) (node_name : String) (locs : List Location)
    (sups : List Supplier) (prods : List Product) : Option (Node × Bool) :=
  match g.get_node_by_name node_name with
  | some found_node => some (found_node, false)
  | none =>
    match (match locs with
           | [] => none
           | l :: _ => g.get_node_by_name l.name : Option Node) with
    | some n => some (n, true)
    | none =>
      match (match sups with
             | [] => none
             | s :: _ => g.get_node_by_name s.name : Option Node) with
      | some n => some (n, true)
      | none =>
        match (match prods with
               | [] => none
               | p :: _ => g.get_node_by_name p.name : Option Node) with
        | some n => some (n, true)
        | none => none

/-- Embeds `agent.explore_graph_connections`; the three trailing arguments are
the oracle results of the `k = 1` vector-store queries made on an exact miss. -/
def explore_graph_connections (g : SupplyChainGraph) (node_name : String)
    (locs : List Location) (sups : List Supplier) (prods : List Product) : List String :=
  match resolveNode g node_name locs sups prods with
  | none => [notFoundMessage node_name]
  | some (found_node, matched_via_semantic) =>
    let neighbors := all_neighbors g found_node
    if neighbors.isEmpty then [isolatedMessage found_node.name]
    else
      let connected_nodes := neighbors.map Node.pyStr
      if matched_via_semantic then [semanticNote node_name found_node.name connected_nodes]
      else connected_nodes

/-- Demo location, as in the end-to-end scenario of the specification. -/
def demoLocation : Location := Location.mk "Port of Shanghai" "China"

/-- Demo supplier located at `demoLocation`. -/
def demoSupplier : Supplier := Supplier.mk "Acme Corp" 1 5000000

/-- Demo product manufactured by `demoSupplier`. -/
def demoProduct : Product := Product.mk "Widget" "SKU1" 50

/-- The demo supplier as a graph node. -/
def demoSupNode : Node := Node.sup demoSupplier

/-- A three-node graph built the way `generate_data` builds it: the location
added first, then the supplier with its `LOCATED_AT` edge, then the product
with its `MANUFACTURES` edge. -/
def demoGraph : SupplyChainGraph :=
  (((((SupplyChainGraph.mk [] []).add_node (Node.loc demoLocation)).add_node
      demoSupNode).add_edge demoSupNode (Node.loc demoLocation) "LOCATED_AT").add_node
      (Node.prod demoProduct)).add_edge demoSupNode (Node.prod demoProduct) "MANUFACTURES"

/-- A graph holding one node and no edge: an isolated node. -/
def isolatedGraph : SupplyChainGraph :=
  (SupplyChainGraph.mk [] []).add_node (Node.loc demoLocation)

/-- Helper: an exact display-name match in the node list makes `find?` return
some first such node. -/
theorem find?_name_of_exists (l : List Node) (q : String) (h : ∃ n ∈ l, n.name = q) :
    ∃ n, l.find? (fun m => decide (m.name = q)) = some n ∧ n.name = q := by
  induction l with
  | nil => simp at h
  | cons a t ih =>
    by_cases ha : a.name = q
    · exact ⟨a, by simp [List.find?_cons_of_pos, ha], ha⟩
    · obtain ⟨n, hn, hq⟩ := h
      rcases List.mem_cons.mp hn with rfl | hn'
      · exact absurd hq ha
      · obtain ⟨m, hm, hq'⟩ := ih ⟨n, hn', hq⟩
        exact ⟨m, by rw [List.find?_cons_of_neg _ (by simp [ha]), hm], hq'⟩

/-- Helper: the isolated-node diagnostic and the not-found diagnostic are
distinct strings for every pair of inserted names (they differ at the third
character). -/
theorem isolated_ne_notFound (a b : String) : isolatedMessage a ≠ notFoundMessage b := by
  intro h
  have h1 : (isolatedMessage a).data.get? 2 = some 'd' := rfl
  have h2 : (notFoundMessage b).data.get? 2 = some ' ' := rfl
  rw [h, h2] at h1
  simp at h1

/-- C1 (counterexample): `retrieve_product_info` has no empty-result guard:
on a query whose k-NN search yields no entities it returns the empty list,
not a sentinel message — refuting the claim for the product lookup. -/
theorem product_lookup_empty_counterexample :
    retrieve_product_info "medical supplies" [] = [] := rfl

/-- C1 (amended): when the k-NN search yields no entities, the supplier and
location lookups return the sentinel "no matches" message naming the query,
but the product lookup returns the empty list. -/
theorem empty_search_sentinels (q : String) :
    retrieve_supplier_info q [] = [supplierNoMatch q] ∧
    retrieve_location_info q [] = [locationNoMatch q] ∧
    retrieve_product_info q [] = [] :=
  ⟨rfl, rfl, rfl⟩

/-- C4 (counterexample): `add_products` performs no deduplication: two
products with the same identity key (sku "SKU1") submitted in one call yield
two collection entries with the same key, refuting the dedup invariant. -/
theorem product_add_duplicate_keys_counterexample :
    ((ProductVectorStore.add_products
        [Product.mk "Widget A" "SKU1" 5, Product.mk "Widget B" "SKU1" 7] []).2.map
      (fun e => e.id)) = ["SKU1", "SKU1"] := rfl

/-- C4 (amended): only the Location store deduplicates its input (via Python
`set`, i.e. by full record, which for `Location` coincides with its identity
key) and within one call its submitted batch has no duplicate entity; the
Product and Supplier stores submit exactly one entry per input list element,
duplicates included. -/
theorem dedup_only_in_location_store :
    (∀ (ps : List Product) (c : List (VEntry ProductMeta)),
        (ProductVectorStore.add_products ps c).2 = c ++ ps.map productEntry) ∧
    (∀ (ss : List Supplier) (c : List (VEntry SupplierMeta)),
        (SupplierVectorStore.add_suppliers ss c).2 = c ++ ss.map supplierEntry) ∧
    (∀ (ls : List Location) (c : List (VEntry LocationMeta)),
        (LocationVectorStore.add_locations ls c).2 = c ++ (pySet ls).map locationEntry) ∧
    (∀ ls : List Location, (pySet ls).Nodup) := by
  refine ⟨fun ps c => ?_, fun ss c => ?_, fun ls c => ?_, fun ls => ?_⟩
  · unfold ProductVectorStore.add_products
    by_cases h : ps = []
    · subst h; simp
    · have h' : (ps.map productEntry).isEmpty = false := by simp [List.isEmpty_iff, h]
      simp [h']
  · unfold SupplierVectorStore.add_suppliers
    by_cases h : ss = []
    · subst h; simp
    · have h' : (ss.map supplierEntry).isEmpty = false := by simp [List.isEmpty_iff, h]
      simp [h']
  · unfold LocationVectorStore.add_locations
    by_cases h : pySet ls = []
    · rw [h]; simp [h]
    · have h' : ((pySet ls).map locationEntry).isEmpty = false := by simp [List.isEmpty_iff, h]
      simp [h']
  · exact List.nodup_dedup ls

/-- C5 (counterexample): two suppliers with equal identity key (name
"Acme Corp") but different non-key fields are unequal as dataclasses, so
NetworkX stores them as two distinct nodes — refuting idempotence by key. -/
theorem add_node_key_collision_counterexample :
    (((SupplyChainGraph.mk [] []).add_node (Node.sup (Supplier.mk "Acme Corp" 0 100))).add_node
        (Node.sup (Supplier.mk "Acme Corp" 1 100))).nodes =
      [Node.sup (Supplier.mk "Acme Corp" 0 100), Node.sup (Supplier.mk "Acme Corp" 1 100)] := by
  decide

/-- C5 (amended): `add_node` is idempotent by full dataclass equality (all
fields): re-adding an equal entity leaves the graph unchanged; equal identity
keys alone do not collapse nodes. -/
theorem add_node_idempotent (g : SupplyChainGraph) (n : Node) :
    (g.add_node n).add_node n = g.add_node n := by
  unfold SupplyChainGraph.add_node
  by_cases h : n ∈ g.nodes
  · simp [h]
  · simp [h]

/-- C6 (counterexample): `add_edge` on the empty graph, with endpoints that
were never added, silently inserts both endpoints and the edge instead of
failing fast — refuting the required-endpoints invariant. -/
theorem add_edge_silently_inserts_counterexample :
    ((SupplyChainGraph.mk [] []).add_edge demoSupNode (Node.loc demoLocation)
        "LOCATED_AT").nodes = [demoSupNode, Node.loc demoLocation] ∧
    ((SupplyChainGraph.mk [] []).add_edge demoSupNode (Node.loc demoLocation)
        "LOCATED_AT").edges = [Edge.mk demoSupNode (Node.loc demoLocation) "LOCATED_AT"] := by
  decide

/-- C6 (amended): `add_edge` never aborts: it auto-inserts any endpoint not
yet in the graph (NetworkX behaviour) and records the directed labelled edge. -/
theorem add_edge_inserts_endpoints (g : SupplyChainGraph) (u v : Node) (t : String) :
    u ∈ (g.add_edge u v t).nodes ∧ v ∈ (g.add_edge u v t).nodes ∧
    Edge.mk u v t ∈ (g.add_edge u v t).edges := by
  have hmono : ∀ (g' : SupplyChainGraph) (a m : Node), m ∈ g'.nodes → m ∈ (g'.add_node a).nodes := by
    intro g' a m hm
    unfold SupplyChainGraph.add_node
    split <;> simp [hm]
  have hself : ∀ (g' : SupplyChainGraph) (a : Node), a ∈ (g'.add_node a).nodes := by
    intro g' a
    unfold SupplyChainGraph.add_node
    split <;> simp_all
  refine ⟨hmono _ _ _ (hself g u), hself _ v, ?_⟩
  show Edge.mk u v t ∈ upsertEdge ((g.add_node u).add_node v).edges u v t
  unfold upsertEdge
  split
  · rename_i hany
    obtain ⟨e, he, hcond⟩ := List.any_eq_true.mp hany
    refine List.mem_map.mpr ⟨e, he, ?_⟩
    simp only [decide_eq_true_eq] at hcond
    simp [hcond]
  · simp

/-- C9: empty inputs are explicit successes: each store's add with an empty
entity list writes nothing and returns `False`, and each store's search
returns the empty list when the underlying query yields no documents (as
ChromaDB reports for an index holding no entries), raising nothing. -/
theorem empty_input_explicit_success :
    (∀ c, ProductVectorStore.add_products [] c = (false, c)) ∧
    (∀ c, SupplierVectorStore.add_suppliers [] c = (false, c)) ∧
    (∀ c, LocationVectorStore.add_locations [] c = (false, c)) ∧
    (∀ metas ids, ProductVectorStore.get_products [] metas ids = []) ∧
    (∀ metas ids, SupplierVectorStore.get_suppliers [] metas ids = []) ∧
    (∀ metas ids, LocationVectorStore.get_locations [] metas ids = []) :=
  ⟨fun _ => rfl, fun _ => rfl, fun _ => rfl, fun _ _ => rfl, fun _ _ => rfl, fun _ _ => rfl⟩

/-- Helper: the loop of `retrieve_product_info` returns the singleton display
of the first case-insensitive name match, whatever is already accumulated. -/
theorem productScan_match (q : String) (acc : List String) (l : List Product) (p : Product)
    (h : l.find? (fun x => decide (pyLower q = pyLower x.name)) = some p) :
    productScan q acc l = [p.pyStr] := by
  induction l generalizing acc with
  | nil => simp at h
  | cons a t ih =>
    by_cases ha : pyLower q = pyLower a.name
    · rw [List.find?_cons_of_pos _ (by simpa using ha)] at h
      obtain rfl := Option.some.inj h
      simp [productScan, ha]
    · rw [List.find?_cons_of_neg _ (by simpa using ha)] at h
      rw [productScan, if_neg ha]
      exact ih _ h

/-- Helper: same for the loop of `retrieve_supplier_info`. -/
theorem supplierScan_match (q : String) (acc : List String) (l : List Supplier) (s : Supplier)
    (h : l.find? (fun x => decide (pyLower q = pyLower x.name)) = some s) :
    supplierScan q acc l = [s.pyStr] := by
  induction l generalizing acc with
  | nil => simp at h
  | cons a t ih =>
    by_cases ha : pyLower q = pyLower a.name
    · rw [List.find?_cons_of_pos _ (by simpa using ha)] at h
      obtain rfl := Option.some.inj h
      simp [supplierScan, ha]
    · rw [List.find?_cons_of_neg _ (by simpa using ha)] at h
      rw [supplierScan, if_neg ha]
      exact ih _ h

/-- Helper: same for the loop of `retrieve_location_info`. -/
theorem locationScan_match (q : String) (acc : List String) (l : List Location) (x : Location)
    (h : l.find? (fun y => decide (pyLower q = pyLower y.name)) = some x) :
    locationScan q acc l = [x.pyStr] := by
  induction l generalizing acc with
  | nil => simp at h
  | cons a t ih =>
    by_cases ha : pyLower q = pyLower a.name
    · rw [List.find?_cons_of_pos _ (by simpa using ha)] at h
      obtain rfl := Option.some.inj h
      simp [locationScan, ha]
    · rw [List.find?_cons_of_neg _ (by simpa using ha)] at h
      rw [locationScan, if_neg ha]
      exact ih _ h

/-- C2: when the query exactly (case-sensitively) equals the display name of
some graph node, resolution returns the first such node in insertion order
with `matched_via_semantic = false` (match kind EXACT), for every possible
response of the three semantic indices — they are never consulted. -/
theorem exact_match_priority (g : SupplyChainGraph) (q : String)
    (h : ∃ n ∈ g.nodes, n.name = q) :
    ∃ n, g.get_node_by_name q = some n ∧ n.name = q ∧
      ∀ (locs : List Location) (sups : List Supplier) (prods : List Product),
        resolveNode g q locs sups prods = some (n, false) := by
  obtain ⟨n, hfind, hname⟩ := find?_name_of_exists g.nodes q h
  have hget : g.get_node_by_name q = some n := hfind
  exact ⟨n, hget, hname, fun locs sups prods => by simp [resolveNode, hget]⟩

/-- Witness for C2 on the demo graph: "Port of Shanghai" is an exact node
name, so resolution is EXACT regardless of the semantic indices. -/
theorem exact_match_priority_witness :
    ∃ n, demoGraph.get_node_by_name "Port of Shanghai" = some n ∧
      n.name = "Port of Shanghai" ∧
      ∀ (locs : List Location) (sups : List Supplier) (prods : List Product),
        resolveNode demoGraph "Port of Shanghai" locs sups prods = some (n, false) :=
  exact_match_priority demoGraph "Port of Shanghai" (by decide)

/-- C3: on an exact miss the cascade consults the Location index, then the
Supplier index, then the Product index, each by its top (`k = 1`) hit alone;
a hit whose name resolves in the graph determines the node with
`matched_via_semantic = true`; a missing or unresolvable hit falls through to
the next index; the result is `none` (NOT_FOUND) only when every stage fails. -/
theorem semantic_cascade_order (g : SupplyChainGraph) (q : String)
    (h : g.get_node_by_name q = none) :
    (∀ (l : Location) (locs : List Location) (sups : List Supplier) (prods : List Product)
        (n : Node), g.get_node_by_name l.name = some n →
          resolveNode g q (l :: locs) sups prods = some (n, true)) ∧
    (∀ (l : Location) (locs : List Location) (sups : List Supplier) (prods : List Product),
        g.get_node_by_name l.name = none →
          resolveNode g q (l :: locs) sups prods = resolveNode g q [] sups prods) ∧
    (∀ (s : Supplier) (sups : List Supplier) (prods : List Product) (n : Node),
        g.get_node_by_name s.name = some n →
          resolveNode g q [] (s :: sups) prods = some (n, true)) ∧
    (∀ (s : Supplier) (sups : List Supplier) (prods : List Product),
        g.get_node_by_name s.name = none →
          resolveNode g q [] (s :: sups) prods = resolveNode g q [] [] prods) ∧
    (∀ (p : Product) (prods : List Product) (n : Node),
        g.get_node_by_name p.name = some n →
          resolveNode g q [] [] (p :: prods) = some (n, true)) ∧
    (∀ (p : Product) (prods : List Product),
        g.get_node_by_name p.name = none → resolveNode g q [] [] (p :: prods) = none) ∧
    resolveNode g q [] [] [] = none := by
  refine ⟨fun l locs sups prods n hl => by simp [resolveNode, h, hl],
    fun l locs sups prods hl => by simp [resolveNode, h, hl],
    fun s sups prods n hs => by simp [resolveNode, h, hs],
    fun s sups prods hs => by simp [resolveNode, h, hs],
    fun p prods n hp => by simp [resolveNode, h, hp],
    fun p prods hp => by simp [resolveNode, h, hp],
    by simp [resolveNode, h]⟩

/-- Witness for C3 on the demo graph with a misspelled query: a Location top
hit that re-resolves in the graph yields a SEMANTIC match, and with every
index empty resolution is NOT_FOUND. -/
theorem semantic_cascade_order_witness :
    resolveNode demoGraph "Port of shangai" [demoLocation] [] [] =
      some (Node.loc demoLocation, true) ∧
    resolveNode demoGraph "Port of shangai" [] [] [] = none := by
  have h := semantic_cascade_order demoGraph "Port of shangai" (by decide)
  exact ⟨h.1 demoLocation [] [] [] (Node.loc demoLocation) (by decide), h.2.2.2.2.2.2⟩

/-- C7: a query that resolves to a node with an empty neighbour set yields the
isolated-node diagnostic naming the resolved node, which is a regular return
value (the embedding is total — nothing is raised) and is never the
not-found diagnostic. -/
theorem isolated_diagnostic (g : SupplyChainGraph) (q : String) (locs : List Location)
    (sups : List Supplier) (prods : List Product) (n : Node) (mvs : Bool)
    (hres : resolveNode g q locs sups prods = some (n, mvs))
    (hiso : all_neighbors g n = []) :
    explore_graph_connections g q locs sups prods = [isolatedMessage n.name] ∧
    explore_graph_connections g q locs sups prods ≠ [notFoundMessage q] := by
  have heq : explore_graph_connections g q locs sups prods = [isolatedMessage n.name] := by
    simp [explore_graph_connections, hres, hiso]
  refine ⟨heq, ?_⟩
  rw [heq]
  intro hc
  simp only [List.cons.injEq, and_true] at hc
  exact isolated_ne_notFound n.name q hc

/-- Witness for C7: the single-node graph has an isolated node, and the exact
query for it produces the isolated diagnostic, not the not-found one. -/
theorem isolated_diagnostic_witness :
    explore_graph_connections isolatedGraph "Port of Shanghai" [] [] [] =
      [isolatedMessage (Node.loc demoLocation).name] ∧
    explore_graph_connections isolatedGraph "Port of Shanghai" [] [] [] ≠
      [notFoundMessage "Port of Shanghai"] :=
  isolated_diagnostic isolatedGraph "Port of Shanghai" [] [] [] (Node.loc demoLocation) false
    (by decide) (by decide)

/-- C8: traversal is direction-agnostic: membership in `all_neighbors` is
exactly "predecessor or successor", with the edge kind not exposed; and on the
demo graph with edges supplier→location and supplier→product, the supplier's
neighbour set is exactly the location and the product, and the supplier is a
neighbour of each. -/
theorem neighbors_direction_agnostic :
    (∀ (g : SupplyChainGraph) (n m : Node),
        m ∈ all_neighbors g n ↔
          (∃ e ∈ g.edges, e.src = m ∧ e.dst = n) ∨ (∃ e ∈ g.edges, e.src = n ∧ e.dst = m)) ∧
    (all_neighbors demoGraph demoSupNode).toFinset =
      {Node.loc demoLocation, Node.prod demoProduct} ∧
    demoSupNode ∈ all_neighbors demoGraph (Node.loc demoLocation) ∧
    demoSupNode ∈ all_neighbors demoGraph (Node.prod demoProduct) := by
  refine ⟨?_, by decide, by decide, by decide⟩
  intro g n m
  simp only [all_neighbors, List.mem_append, predecessors, successors, List.mem_map,
    List.mem_filter, decide_eq_true_eq]
  constructor
  · rintro (⟨e, ⟨he, hd⟩, hs⟩ | ⟨e, ⟨he, hs⟩, hd⟩)
    · exact Or.inl ⟨e, he, hs, hd⟩
    · exact Or.inr ⟨e, he, hs, hd⟩
  · rintro (⟨e, he, hs, hd⟩ | ⟨e, he, hs, hd⟩)
    · exact Or.inl ⟨e, ⟨he, hd⟩, hs⟩
    · exact Or.inr ⟨e, ⟨he, hs⟩, hd⟩

/-- C10: in each description-lookup operation, the first candidate of the
search result whose name equals the query under case-insensitive comparison
makes the operation return only that candidate's display string, discarding
every other candidate (including already-accumulated higher-ranked ones). -/
theorem exact_name_short_circuit :
    (∀ (q : String) (l : List Product) (p : Product),
        l.find? (fun x => decide (pyLower q = pyLower x.name)) = some p →
          retrieve_product_info q l = [p.pyStr]) ∧
    (∀ (q : String) (l : List Supplier) (s : Supplier),
        l.find? (fun x => decide (pyLower q = pyLower x.name)) = some s →
          retrieve_supplier_info q l = [s.pyStr]) ∧
    (∀ (q : String) (l : List Location) (x : Location),
        l.find? (fun y => decide (pyLower q = pyLower y.name)) = some x →
          retrieve_location_info q l = [x.pyStr]) := by
  refine ⟨fun q l p h => productScan_match q [] l p h, fun q l s h => ?_, fun q l x h => ?_⟩
  · cases l with
    | nil => simp at h
    | cons a t =>
      rw [retrieve_supplier_info]
      simp only [List.isEmpty_cons, Bool.false_eq_true, if_false]
      exact supplierScan_match q [] (a :: t) s h
  · cases l with
    | nil => simp at h
    | cons a t =>
      rw [retrieve_location_info]
      simp only [List.isEmpty_cons, Bool.false_eq_true, if_false]
      exact locationScan_match q [] (a :: t) x h

/-- Witness for C10: a lower-case query short-circuits on the upper-case
second candidate, discarding the already-accumulated first candidate, in all
three lookups. -/
theorem exact_name_short_circuit_witness :
    retrieve_product_info "widget"
        [Product.mk "Gadget" "S0" 1, Product.mk "WIDGET" "S1" 2, Product.mk "Widget" "S2" 3] =
      [(Product.mk "WIDGET" "S1" 2).pyStr] ∧
    retrieve_supplier_info "acme corp"
        [Supplier.mk "Zeta Corp" 0 1, Supplier.mk "Acme Corp" 0 1] =
      [(Supplier.mk "Acme Corp" 0 1).pyStr] ∧
    retrieve_location_info "port of shanghai"
        [Location.mk "Shanghai Port" "China", Location.mk "Port of Shanghai" "China"] =
      [(Location.mk "Port of Shanghai" "China").pyStr] :=
  ⟨exact_name_short_circuit.1 "widget"
      [Product.mk "Gadget" "S0" 1, Product.mk "WIDGET" "S1" 2, Product.mk "Widget" "S2" 3]
      (Product.mk "WIDGET" "S1" 2) (by decide),
    exact_name_short_circuit.2.1 "acme corp"
      [Supplier.mk "Zeta Corp" 0 1, Supplier.mk "Acme Corp" 0 1]
      (Supplier.mk "Acme Corp" 0 1) (by decide),
    exact_name_short_circuit.2.2 "port of shanghai"
      [Location.mk "Shanghai Port" "China", Location.mk "Port of Shanghai" "China"]
      (Location.mk "Port of Shanghai" "China") (by decide)⟩

end SupplyChainRisk
